import Mathlib

/-!
# SCIM identity-management plugin

A shallow embedding of

* `pkg/utils/httpclient/httpclient.go` : `DecodeResponse`
* `internal/plugin/scim/plugin.go` : `NewPlugin`, `Configure`, `GetUsersForGroup`,
  `GetGroupsForUser`, `getFilter`

Conventions of the embedding.

* A Go result pair `(*T, error)` is a pair of options; `none` is `nil`.
* Library calls whose code lives outside the repository (`encoding/json`, `gopkg.in/yaml.v3`)
  and the SCIM client package `pkg/clients/scim` are function parameters of the operation that
  calls them; nothing is assumed about what they return.
* Log output is an explicit list of records returned next to the result.
* `context.Context` is handed unchanged to every collaborator and never inspected by the code
  embedded here; the function parameters stand for the collaborator called under the caller's
  context.
* Pointers handed over by the host runtime (the request message, the HTTP response, the logger set
  through `SetLogger`) are present.
-/

set_option linter.dupNamespace false

namespace IdentityManagement

/-! ## Go error values -/

/-- Go error values as far as the embedded code builds and inspects them. -/
inductive Error where
  /-- Value of `errors.New(text)` kept in the package variable `name` (identity is the variable). -/
  | New (name text : String)
  /-- An error value produced by code outside the repository, rendered as `text`. -/
  | lib (text : String)
  /-- Value of `fmt.Errorf` with one `%w` verb: `text` is the formatted message. -/
  | errorf (text : String) (cause : Error)
  /-- Value of `errs.Wrap(err, cause)`: both `err` and `cause` are in its cause chain. -/
  | wrap (err cause : Error)
  /-- Value of `oops.In(domain).Wrapf(cause, text)`. -/
  | oops (domain text : String) (cause : Error)
  deriving DecidableEq, Repr

/-- The method `Error()`: the message of an error value. The sources at hand do not fix how
`wrap` and `oops` nodes are rendered; no statement below depends on the two last cases. -/
def Error.Error : Error → String
  | .New _ t => t
  | .lib t => t
  | .errorf t _ => t
  | .wrap e c => e.Error ++ ": " ++ c.Error
  | .oops _ t c => t ++ ": " ++ c.Error

namespace errors

/-- The function `errors.Is`: `target` occurs in the cause chain of `err`. -/
def Is (err target : Error) : Bool :=
  err == target ||
    match err with
    | .errorf _ c => Is c target
    | .wrap e c => Is e target || Is c target
    | .oops _ _ c => Is c target
    | _ => false

/-- The function `errors.Unwrap`: the single wrapped cause, when the value has exactly one. -/
def Unwrap : Error → Option Error
  | .errorf _ c => some c
  | .oops _ _ c => some c
  | _ => none

end errors

/-! ## Log output -/

/-- Log levels used by the embedded code. -/
inductive Level where
  | Debug
  | Info
  deriving DecidableEq, Repr

/-- One emitted log line. -/
structure LogRecord where
  level : Level
  msg : String
  deriving DecidableEq, Repr

/-! ## `pkg/utils/httpclient` -/

namespace httpclient

/-- The package variable `ErrUnexpectedStatusCode`. -/
def ErrUnexpectedStatusCode : Error :=
  .New "httpclient.ErrUnexpectedStatusCode" "unexpected status code"

/-- A response body stream: the bytes that can still be read from it, and the error (if any)
that ends the stream instead of a clean end of file. -/
structure ReadCloser where
  data : String
  readErr : Option Error
  deriving DecidableEq, Repr

/-- The function `io.ReadAll`: everything that can be read, and the read error. -/
def ReadAll (r : ReadCloser) : String × Option Error :=
  (r.data, r.readErr)

/-- The fields of `http.Response` read by `DecodeResponse`. -/
structure Response where
  Status : String
  StatusCode : Int
  Body : ReadCloser
  deriving DecidableEq, Repr

/-- What a call of `DecodeResponse` produces: the log lines it emitted and the returned pair. -/
structure DecodeOutcome (T : Type) where
  logs : List LogRecord
  result : Option T
  err : Option Error

/-- The function `DecodeResponse[T]`. `Decode body` stands for
`json.NewDecoder(body).Decode(&result)`: the value left in `result`, the returned error, and
the body stream after the decoder has read from it. `default` is the zero value of `T`. -/
def DecodeResponse {T : Type} [Inhabited T]
    (Decode : ReadCloser → T × Option Error × ReadCloser)
    (apiName : String) (resp : Response) (expectedStatus : Int) : DecodeOutcome T :=
  let step : T × Option Error × ReadCloser :=
    if resp.StatusCode = expectedStatus then
      Decode resp.Body
    else
      (default,
        some (.errorf (ErrUnexpectedStatusCode.Error ++ " " ++ resp.Status)
          ErrUnexpectedStatusCode),
        resp.Body)
  match step with
  | (_, some respErr, body) =>
    let respBody := (ReadAll body).1
    { logs := [⟨.Debug, "body of unexpected response from " ++ apiName ++ ": " ++ respBody⟩]
      result := none
      err := some (.errorf ("invalid response from " ++ apiName ++ ": " ++ respErr.Error)
        respErr) }
  | (result, none, _) =>
    { logs := []
      result := some result
      err := none }

end httpclient

/-! ## `pkg/utils/errs` -/

namespace errs

/-- Modelled from the spec: the helper `errs.Wrap` of `pkg/utils/errs`, which is not among the
sources. The adapter "returns a classified failure wrapping the Query Client's error" and "every
layer wraps rather than discards the underlying cause": the value is identified as `err` and
keeps `cause` in its cause chain. -/
def Wrap (err cause : Error) : Error :=
  .wrap err cause

end errs

/-! ## `pkg/clients/scim`: the declarations the plugin uses -/

namespace scim

/-- The type `scim.FilterOperator`. -/
abbrev FilterOperator := String

/-- Modelled from the spec: the constant `scim.FilterOperatorEqual`, declared in
`pkg/clients/scim`, which is not among the sources; the equality operator of the SCIM filter
grammar `attribute eq "value"`. -/
def FilterOperatorEqual : FilterOperator := "eq"

/-- The fields of `scim.FilterComparison` set by the plugin. -/
structure FilterComparison where
  Attribute : String
  Operator : FilterOperator
  Value : String
  deriving DecidableEq, Repr

/-- The connection parameters `scim.APIParams` (host and credentials). -/
structure APIParams where
  Host : String
  ClientID : String
  ClientSecret : String
  deriving DecidableEq, Repr

/-- A SCIM user resource; the plugin reads `DisplayName` only. -/
structure User where
  DisplayName : String
  deriving DecidableEq, Repr

/-- A SCIM group resource; the plugin reads `DisplayName` only. -/
structure Group where
  DisplayName : String
  deriving DecidableEq, Repr

/-- The list response of `ListUsers`; the plugin reads `Resources` only. -/
structure UserList where
  Resources : List User
  deriving DecidableEq, Repr

/-- The list response of `ListGroups`; the plugin reads `Resources` only. -/
structure GroupList where
  Resources : List Group
  deriving DecidableEq, Repr

/-- Modelled from the spec: the parameter list of the client methods `ListUsers` and `ListGroups`,
`listUsers(ctx, includeInactive, filter, pageParams?, sortParams?)`; the methods are declared in
`pkg/clients/scim`, which is not among the sources. A value records one call
`client.ListUsers(ctx, a, filter, b, c)` or `client.ListGroups(ctx, a, filter, b, c)`: the
receiver and the four arguments after the context, in the order of the call. `PageP` and `SortP`
are the pointed-to types of the last two parameters, for which the plugin passes `nil`. -/
structure ListCall (Client PageP SortP : Type) where
  client : Option Client
  includeInactive : Bool
  filter : FilterComparison
  pageParams : Option PageP
  sortParams : Option SortP

end scim

/-! ## Messages of the host protocol -/

namespace configv1

/-- The message `ConfigureRequest`. -/
structure ConfigureRequest where
  YamlConfiguration : String
  deriving DecidableEq, Repr

/-- The message `ConfigureResponse` (no fields). -/
structure ConfigureResponse where
  deriving DecidableEq, Repr

end configv1

namespace idmangv1

/-- The message `User`. -/
structure User where
  Name : String
  deriving DecidableEq, Repr

/-- The message `Group`. -/
structure Group where
  Name : String
  deriving DecidableEq, Repr

/-- The message `GetUsersForGroupRequest`. -/
structure GetUsersForGroupRequest where
  GroupId : String
  deriving DecidableEq, Repr

/-- The message `GetGroupsForUserRequest`. -/
structure GetGroupsForUserRequest where
  UserId : String
  deriving DecidableEq, Repr

/-- The message `GetUsersForGroupResponse`; `Users` is a slice of pointers. -/
structure GetUsersForGroupResponse where
  Users : List (Option User)
  deriving DecidableEq, Repr

/-- The message `GetGroupsForUserResponse`; `Groups` is a slice of pointers. -/
structure GetGroupsForUserResponse where
  Groups : List (Option Group)
  deriving DecidableEq, Repr

end idmangv1

/-! ## `internal/plugin/scim` -/

/-- How a call of a Go function with result `(*α, error)` ends. -/
inductive Outcome (α : Type) where
  | returned (resp : Option α) (err : Option Error)
  | panicked
  deriving DecidableEq, Repr

namespace plugin

/-- The package variable `ErrPluginCreation`. -/
def ErrPluginCreation : Error :=
  .New "plugin/scim.ErrPluginCreation" "failed to create plugin"

/-- The package variable `ErrGetGroupsForUser`. -/
def ErrGetGroupsForUser : Error :=
  .New "plugin/scim.ErrGetGroupsForUser" "failed to get groups for user"

/-- The package variable `ErrGetUsersForGroup`. -/
def ErrGetUsersForGroup : Error :=
  .New "plugin/scim.ErrGetUsersForGroup" "failed to get users for group"

/-- The constant `defaultFilterAttribute`. -/
def defaultFilterAttribute : String := "displayName"

/-- The constant `defaultUsersFilterAttribute`. -/
def defaultUsersFilterAttribute : String := defaultFilterAttribute

/-- The constant `defaultGroupsFilterAttribute`. -/
def defaultGroupsFilterAttribute : String := defaultFilterAttribute

/-- The struct `RequestParams`; a nil `*string` is `none`. -/
structure RequestParams where
  GroupAttribute : Option String
  UserAttribute : Option String
  deriving DecidableEq, Repr

/-- The struct `Config`. -/
structure Config where
  ConnectCfg : scim.APIParams
  RequestParams : RequestParams
  deriving DecidableEq, Repr

/-- The struct `Plugin`: the stored client pointer and the stored attribute overrides. -/
structure Plugin (Client : Type) where
  scimClient : Option Client
  requestParams : RequestParams
  deriving DecidableEq, Repr

/-- The function `NewPlugin`: the zero value of `Plugin`. -/
def NewPlugin {Client : Type} : Plugin Client :=
  { scimClient := none, requestParams := { GroupAttribute := none, UserAttribute := none } }

/-- What a call of `Configure` produces: the receiver after the call, the log lines, and the
returned pair. -/
structure ConfigureOutcome (Client : Type) where
  plugin : Plugin Client
  logs : List LogRecord
  resp : Option configv1.ConfigureResponse
  err : Option Error

/-- The method `Plugin.Configure`. `Unmarshal yaml` stands for `yaml.Unmarshal([]byte(yaml), &cfg)`
on a zero `cfg`: the value left in `cfg` and the returned error. `NewClient` stands for
`scim.NewClient(ctx, ·)`. -/
def Configure {Client : Type}
    (Unmarshal : String → Config × Option Error)
    (NewClient : scim.APIParams → Option Client × Option Error)
    (p : Plugin Client) (req : configv1.ConfigureRequest) : ConfigureOutcome Client :=
  let logs : List LogRecord := [⟨.Info, "Configuring plugin"⟩]
  match Unmarshal req.YamlConfiguration with
  | (_, some err) =>
    { plugin := p
      logs := logs
      resp := none
      err := some (.oops "Identity management Plugin" "Failed to get yaml Configuration" err) }
  | (cfg, none) =>
    match NewClient cfg.ConnectCfg with
    | (_, some err) =>
      { plugin := p, logs := logs, resp := none, err := some err }
    | (client, none) =>
      { plugin := { p with scimClient := client }
        logs := logs
        resp := some {}
        err := none }

/-- The function `getFilter`. -/
def getFilter (defaultAttribute value : String) (setAttribute : Option String) :
    scim.FilterComparison :=
  let filter : scim.FilterComparison :=
    { Attribute := defaultAttribute
      Operator := scim.FilterOperatorEqual
      Value := value }
  match setAttribute with
  | some a => { filter with Attribute := a }
  | none => filter

/-- What a query operation produces: the calls it made on the SCIM client, in order, and how it
ended. -/
structure QueryOutcome (Client PageP SortP α : Type) where
  calls : List (scim.ListCall Client PageP SortP)
  outcome : Outcome α

/-- A method body as the SCIM client sees it: it ends, or it calls one client method with some
arguments and goes on with what that method returned (`Ret` is the type of what it returns). -/
inductive ClientProgram (Client PageP SortP Ret α : Type) where
  | done (outcome : Outcome α)
  | call (args : scim.ListCall Client PageP SortP)
      (next : Ret → ClientProgram Client PageP SortP Ret α)

/-- Running a method body against the client method `method`: each call is answered by `method`
applied to the arguments of that call, and the arguments are recorded in the order of the
calls. -/
def ClientProgram.run {Client PageP SortP Ret α : Type}
    (method : scim.ListCall Client PageP SortP → Ret) :
    ClientProgram Client PageP SortP Ret α → QueryOutcome Client PageP SortP α
  | .done outcome => { calls := [], outcome := outcome }
  | .call args next =>
    let rest := run method (next (method args))
    { calls := args :: rest.calls, outcome := rest.outcome }

/-- The loop of `GetUsersForGroup`: `make([]*User, len(Resources))`, then
`responseUsers[i] = &User{Name: user.DisplayName}` for each index. -/
def projectUsers (Resources : List scim.User) : List (Option idmangv1.User) :=
  Resources.enum.foldl
    (fun responseUsers iu => responseUsers.set iu.1 (some { Name := iu.2.DisplayName }))
    (List.replicate Resources.length none)

/-- The loop of `GetGroupsForUser`: `make([]*Group, len(Resources))`, then
`responseGroups[i] = &Group{Name: group.DisplayName}` for each index. -/
def projectGroups (Resources : List scim.Group) : List (Option idmangv1.Group) :=
  Resources.enum.foldl
    (fun responseGroups ig => responseGroups.set ig.1 (some { Name := ig.2.DisplayName }))
    (List.replicate Resources.length none)

/-- The method `Plugin.GetUsersForGroup`, run against `ListUsers`, which stands for the method of
that name of the SCIM client, called under the caller's context; `listed` is what the call
returned. Reading `users.Resources` through a nil `users` panics. -/
def GetUsersForGroup {Client PageP SortP : Type}
    (ListUsers : scim.ListCall Client PageP SortP → Outcome scim.UserList)
    (p : Plugin Client) (request : idmangv1.GetUsersForGroupRequest) :
    QueryOutcome Client PageP SortP idmangv1.GetUsersForGroupResponse :=
  let filter := getFilter defaultGroupsFilterAttribute request.GroupId
    p.requestParams.GroupAttribute
  ClientProgram.run ListUsers
    (.call
      { client := p.scimClient, includeInactive := true, filter := filter,
        pageParams := none, sortParams := none }
      fun listed =>
        .done
          (match listed with
          | .panicked => .panicked
          | .returned _ (some err) => .returned none (some (errs.Wrap ErrGetUsersForGroup err))
          | .returned none none => .panicked
          | .returned (some users) none =>
            .returned (some { Users := projectUsers users.Resources }) none))

/-- The method `Plugin.GetGroupsForUser`, run against `ListGroups`, which stands for the method
of that name of the SCIM client, called under the caller's context; `listed` is what the call
returned. Reading `groups.Resources` through a nil `groups` panics. -/
def GetGroupsForUser {Client PageP SortP : Type}
    (ListGroups : scim.ListCall Client PageP SortP → Outcome scim.GroupList)
    (p : Plugin Client) (request : idmangv1.GetGroupsForUserRequest) :
    QueryOutcome Client PageP SortP idmangv1.GetGroupsForUserResponse :=
  let filter := getFilter defaultUsersFilterAttribute request.UserId
    p.requestParams.UserAttribute
  ClientProgram.run ListGroups
    (.call
      { client := p.scimClient, includeInactive := true, filter := filter,
        pageParams := none, sortParams := none }
      fun listed =>
        .done
          (match listed with
          | .panicked => .panicked
          | .returned _ (some err) => .returned none (some (errs.Wrap ErrGetGroupsForUser err))
          | .returned none none => .panicked
          | .returned (some groups) none =>
            .returned (some { Groups := projectGroups groups.Resources }) none))

end plugin

/-! ## Sample inputs -/

namespace samples

/-- A `404` response with a JSON body. -/
def notFound : httpclient.Response :=
  { Status := "404 Not Found", StatusCode := 404, Body := { data := "[1,2]", readErr := none } }

/-- A `200` response whose body is cut short. -/
def truncated : httpclient.Response :=
  { Status := "200 OK", StatusCode := 200, Body := { data := "[1,", readErr := none } }

/-- A `200` response with a complete body. -/
def complete : httpclient.Response :=
  { Status := "200 OK", StatusCode := 200, Body := { data := "[1,2]", readErr := none } }

/-- A decoder for `T = List Nat` that knows two bodies: `[1,2]` decodes, anything else stops with
an unexpected end of input after the whole body has been consumed. -/
def decodeNats (body : httpclient.ReadCloser) : List Nat × Option Error × httpclient.ReadCloser :=
  if body.data = "[1,2]" then
    ([1, 2], none, { body with data := "" })
  else
    ([], some (.lib "unexpected EOF"), { body with data := "" })

/-- A YAML configuration that sets the group attribute. -/
def yaml : String :=
  "connectcfg:\n  host: https://scim.example\nrequestparams:\n  groupattribute: Non-existent\n"

/-- The configuration written in `yaml`. -/
def config : plugin.Config :=
  { ConnectCfg := { Host := "https://scim.example", ClientID := "", ClientSecret := "" }
    RequestParams := { GroupAttribute := some "Non-existent", UserAttribute := none } }

/-- A YAML reader that knows the text `yaml` and rejects every other text. -/
def unmarshal (text : String) : plugin.Config × Option Error :=
  if text = yaml then
    (config, none)
  else
    ({ ConnectCfg := { Host := "", ClientID := "", ClientSecret := "" }
       RequestParams := { GroupAttribute := none, UserAttribute := none } },
      some (.lib "yaml: unmarshal errors"))

/-- A client constructor: the client is its connection parameters; an empty host is refused. -/
def newClient (params : scim.APIParams) : Option scim.APIParams × Option Error :=
  if params.Host = "" then
    (none, some (.lib "empty host"))
  else
    (some params, none)

/-- A list failure of the SCIM client, as the client reports an unreachable host. -/
def listFailure : Error :=
  .wrap (.New "clients/scim.ErrListUsers" "failed to list users")
    (.lib "unsupported protocol scheme")

/-- A SCIM backend behind `ListUsers`, after the mock server of the plugin tests: no client
panics, the host `badurl` fails, a request that mentions `Non-existent` matches nothing, every
other request matches the one user named `None`. -/
def listUsers (call : scim.ListCall scim.APIParams Unit Unit) : Outcome scim.UserList :=
  match call.client with
  | none => .panicked
  | some params =>
    if params.Host = "badurl" then
      .returned none (some listFailure)
    else if call.filter.Attribute = "Non-existent" ∨ call.filter.Value = "Non-existent" then
      .returned (some { Resources := [] }) none
    else
      .returned (some { Resources := [{ DisplayName := "None" }] }) none

/-- The same backend behind `ListGroups`, with the one group named `KeyAdmin`. -/
def listGroups (call : scim.ListCall scim.APIParams Unit Unit) : Outcome scim.GroupList :=
  match call.client with
  | none => .panicked
  | some params =>
    if params.Host = "badurl" then
      .returned none (some listFailure)
    else if call.filter.Attribute = "Non-existent" ∨ call.filter.Value = "Non-existent" then
      .returned (some { Resources := [] }) none
    else
      .returned (some { Resources := [{ DisplayName := "KeyAdmin" }] }) none

/-- A configured plugin without attribute overrides. -/
def configured : plugin.Plugin scim.APIParams :=
  { scimClient := some { Host := "https://scim.example", ClientID := "", ClientSecret := "" }
    requestParams := { GroupAttribute := none, UserAttribute := none } }

/-- A plugin whose client points at an unusable host. -/
def badServer : plugin.Plugin scim.APIParams :=
  { scimClient := some { Host := "badurl", ClientID := "", ClientSecret := "" }
    requestParams := { GroupAttribute := none, UserAttribute := none } }

end samples

/-! ## Theorems: cause chains -/

namespace errors

/-- Every error is in its own cause chain. -/
theorem Is_self (e : Error) : Is e e = true := by
  cases e <;> simp [Is]

/-- The cause chain of a `fmt.Errorf` value: the value itself, then the chain of its cause. -/
theorem Is_errorf (t : String) (c target : Error) :
    Is (.errorf t c) target = (decide (Error.errorf t c = target) || Is c target) := by
  rw [Is]
  rfl

/-- The cause chain of an `errs.Wrap` value: the value itself, then both chains. -/
theorem Is_wrap (e c target : Error) :
    Is (.wrap e c) target =
      (decide (Error.wrap e c = target) || (Is e target || Is c target)) := by
  rw [Is]
  rfl

/-- The cause chain of an `oops` value: the value itself, then the chain of its cause. -/
theorem Is_oops (d t : String) (c target : Error) :
    Is (.oops d t c) target = (decide (Error.oops d t c = target) || Is c target) := by
  rw [Is]
  rfl

end errors

/-! ## Theorems: `DecodeResponse` -/

namespace httpclient

/-- The two formatting steps of the status-mismatch path give one message. -/
theorem status_message (apiName status : String) :
    "invalid response from " ++ apiName ++ ": " ++ ("unexpected status code" ++ " " ++ status) =
      "invalid response from " ++ apiName ++ ": unexpected status code " ++ status := by
  apply String.ext
  simp [String.data_append]

/-- The whole outcome of `DecodeResponse` when the status differs from the expected one. -/
theorem DecodeResponse_of_mismatch {T : Type} [Inhabited T]
    (Decode : ReadCloser → T × Option Error × ReadCloser)
    (apiName : String) (resp : Response) (expectedStatus : Int)
    (h : resp.StatusCode ≠ expectedStatus) :
    DecodeResponse Decode apiName resp expectedStatus =
      { logs := [⟨.Debug, "body of unexpected response from " ++ apiName ++ ": " ++
          resp.Body.data⟩]
        result := none
        err := some (.errorf ("invalid response from " ++ apiName ++ ": " ++
          ("unexpected status code" ++ " " ++ resp.Status))
          (.errorf ("unexpected status code" ++ " " ++ resp.Status)
            ErrUnexpectedStatusCode)) } := by
  simp [DecodeResponse, h, ReadAll, ErrUnexpectedStatusCode, Error.Error]

/-- The whole outcome of `DecodeResponse` when the status matches and the decoder fails. -/
theorem DecodeResponse_of_decode_error {T : Type} [Inhabited T]
    (Decode : ReadCloser → T × Option Error × ReadCloser)
    (apiName : String) (resp : Response) (expectedStatus : Int)
    (h : resp.StatusCode = expectedStatus) (e : Error)
    (he : (Decode resp.Body).2.1 = some e) :
    DecodeResponse Decode apiName resp expectedStatus =
      { logs := [⟨.Debug, "body of unexpected response from " ++ apiName ++ ": " ++
          (Decode resp.Body).2.2.data⟩]
        result := none
        err := some (.errorf ("invalid response from " ++ apiName ++ ": " ++ e.Error) e) } := by
  rcases hd : Decode resp.Body with ⟨v, oe, rest⟩
  rw [hd] at he
  simp only at he
  subst he
  simp [DecodeResponse, h, hd, ReadAll]

/-- The whole outcome of `DecodeResponse` when the status matches and the decoder succeeds. -/
theorem DecodeResponse_of_decode_ok {T : Type} [Inhabited T]
    (Decode : ReadCloser → T × Option Error × ReadCloser)
    (apiName : String) (resp : Response) (expectedStatus : Int)
    (h : resp.StatusCode = expectedStatus)
    (he : (Decode resp.Body).2.1 = none) :
    DecodeResponse Decode apiName resp expectedStatus =
      { logs := [], result := some (Decode resp.Body).1, err := none } := by
  rcases hd : Decode resp.Body with ⟨v, oe, rest⟩
  rw [hd] at he
  simp only at he
  subst he
  simp [DecodeResponse, h, hd]

/-- C3: when the response status differs from the expected status, `DecodeResponse` returns a
nil result and an error whose cause chain contains `ErrUnexpectedStatusCode` and whose message is
`invalid response from <apiName>: unexpected status code <resp.Status>`; the returned pair is the
same for every JSON decoder and every body, so the body is not parsed. -/
theorem DecodeResponse_status_mismatch {T : Type} [Inhabited T]
    (Decode : ReadCloser → T × Option Error × ReadCloser)
    (apiName : String) (resp : Response) (expectedStatus : Int)
    (h : resp.StatusCode ≠ expectedStatus) :
    (DecodeResponse Decode apiName resp expectedStatus).result = none ∧
    (∃ e, (DecodeResponse Decode apiName resp expectedStatus).err = some e ∧
      errors.Is e ErrUnexpectedStatusCode = true ∧
      e.Error =
        "invalid response from " ++ apiName ++ ": unexpected status code " ++ resp.Status) ∧
    (∀ (Decode2 : ReadCloser → T × Option Error × ReadCloser) (body : ReadCloser),
      (DecodeResponse Decode2 apiName { resp with Body := body } expectedStatus).result =
        (DecodeResponse Decode apiName resp expectedStatus).result ∧
      (DecodeResponse Decode2 apiName { resp with Body := body } expectedStatus).err =
        (DecodeResponse Decode apiName resp expectedStatus).err) := by
  rw [DecodeResponse_of_mismatch Decode apiName resp expectedStatus h]
  refine ⟨rfl, ⟨_, rfl, ?_, ?_⟩, ?_⟩
  · rw [errors.Is_errorf, errors.Is_errorf, errors.Is_self]
    simp
  · exact status_message apiName resp.Status
  · intro Decode2 body
    rw [DecodeResponse_of_mismatch Decode2 apiName { resp with Body := body } expectedStatus h]
    exact ⟨rfl, rfl⟩

/-- Witness for C3: a `404` answer to a call that expects `200`. -/
theorem DecodeResponse_status_mismatch_witness :
    samples.notFound.StatusCode ≠ 200 ∧
    (DecodeResponse samples.decodeNats "ListUsers" samples.notFound 200).result = none ∧
    (∃ e, (DecodeResponse samples.decodeNats "ListUsers" samples.notFound 200).err = some e ∧
      errors.Is e ErrUnexpectedStatusCode = true ∧
      e.Error = "invalid response from " ++ "ListUsers" ++ ": unexpected status code " ++
        samples.notFound.Status) :=
  have h := DecodeResponse_status_mismatch samples.decodeNats "ListUsers" samples.notFound 200
    (by decide)
  ⟨by decide, h.1, h.2.1⟩

/-- C4: when the status matches and the JSON decoder fails with a parse error `e`,
`DecodeResponse` returns a nil result and an error that wraps `e`, whose message is
`invalid response from <apiName>: <text of e>` and so contains the API name and the parse failure
text. The wrapping adds nothing to the cause chain but the new value itself: the chain contains
`ErrUnexpectedStatusCode` exactly if the chain of `e` does, so for a parse error, which is no
status error, it does not. -/
theorem DecodeResponse_parse_failure {T : Type} [Inhabited T]
    (Decode : ReadCloser → T × Option Error × ReadCloser)
    (apiName : String) (resp : Response) (expectedStatus : Int) (e : Error)
    (h : resp.StatusCode = expectedStatus)
    (he : (Decode resp.Body).2.1 = some e) :
    (DecodeResponse Decode apiName resp expectedStatus).result = none ∧
    (∃ err, (DecodeResponse Decode apiName resp expectedStatus).err = some err ∧
      errors.Unwrap err = some e ∧
      errors.Is err e = true ∧
      err.Error = "invalid response from " ++ apiName ++ ": " ++ e.Error ∧
      (∃ pre post, err.Error = pre ++ apiName ++ post) ∧
      (∃ pre, err.Error = pre ++ e.Error) ∧
      errors.Is err ErrUnexpectedStatusCode = errors.Is e ErrUnexpectedStatusCode ∧
      (errors.Is e ErrUnexpectedStatusCode = false →
        errors.Is err ErrUnexpectedStatusCode = false)) := by
  rw [DecodeResponse_of_decode_error Decode apiName resp expectedStatus h e he]
  have hchain : errors.Is (.errorf ("invalid response from " ++ apiName ++ ": " ++ e.Error) e)
      ErrUnexpectedStatusCode = errors.Is e ErrUnexpectedStatusCode := by
    rw [errors.Is_errorf]
    simp [ErrUnexpectedStatusCode]
  refine ⟨rfl, ⟨_, rfl, rfl, ?_, rfl, ⟨"invalid response from ", ": " ++ e.Error, ?_⟩,
    ⟨"invalid response from " ++ apiName ++ ": ", rfl⟩, hchain, ?_⟩⟩
  · rw [errors.Is_errorf, errors.Is_self]
    simp
  · simp [Error.Error, String.append_assoc]
  · intro hkind
    rw [hchain, hkind]

/-- Witness for C4: a `200` answer whose body is cut short. -/
theorem DecodeResponse_parse_failure_witness :
    samples.truncated.StatusCode = 200 ∧
    (samples.decodeNats samples.truncated.Body).2.1 = some (.lib "unexpected EOF") ∧
    (DecodeResponse samples.decodeNats "ListUsers" samples.truncated 200).result = none ∧
    (∃ err, (DecodeResponse samples.decodeNats "ListUsers" samples.truncated 200).err =
        some err ∧
      errors.Unwrap err = some (.lib "unexpected EOF") ∧
      err.Error = "invalid response from " ++ "ListUsers" ++ ": " ++ "unexpected EOF" ∧
      errors.Is err ErrUnexpectedStatusCode = false) :=
  have h := DecodeResponse_parse_failure samples.decodeNats "ListUsers" samples.truncated 200
    (.lib "unexpected EOF") (by decide) (by decide)
  ⟨by decide, by decide, h.1,
    h.2.imp fun _ hx => ⟨hx.1, hx.2.1, hx.2.2.2.1, hx.2.2.2.2.2.2.2 (by decide)⟩⟩

/-- C5: `DecodeResponse` returns a nil error exactly when the status matches and the JSON
decoder reports no error; then the result is non-nil and is the decoded value; in every other
case the result is nil and the error is non-nil. Exactly one of result and error is nil. -/
theorem DecodeResponse_succeeds_iff {T : Type} [Inhabited T]
    (Decode : ReadCloser → T × Option Error × ReadCloser)
    (apiName : String) (resp : Response) (expectedStatus : Int) :
    ((DecodeResponse Decode apiName resp expectedStatus).err = none ↔
      (resp.StatusCode = expectedStatus ∧ (Decode resp.Body).2.1 = none)) ∧
    (if resp.StatusCode = expectedStatus ∧ (Decode resp.Body).2.1 = none then
      (DecodeResponse Decode apiName resp expectedStatus).result = some (Decode resp.Body).1 ∧
      (DecodeResponse Decode apiName resp expectedStatus).err = none
    else
      (DecodeResponse Decode apiName resp expectedStatus).result = none ∧
      ∃ e, (DecodeResponse Decode apiName resp expectedStatus).err = some e) ∧
    (DecodeResponse Decode apiName resp expectedStatus).result.isSome =
      (DecodeResponse Decode apiName resp expectedStatus).err.isNone := by
  by_cases h : resp.StatusCode = expectedStatus
  · cases he : (Decode resp.Body).2.1 with
    | none =>
      rw [DecodeResponse_of_decode_ok Decode apiName resp expectedStatus h he]
      simp [h]
    | some e =>
      rw [DecodeResponse_of_decode_error Decode apiName resp expectedStatus h e he]
      simp [h]
  · rw [DecodeResponse_of_mismatch Decode apiName resp expectedStatus h]
    simp [h]

/-- C8, the claim as stated fails: a `200` answer with a truncated body, decoded against the
expected status `200`, emits a trace line although the status matches. -/
theorem DecodeResponse_parse_failure_logs :
    samples.truncated.StatusCode = 200 ∧
    (samples.decodeNats samples.truncated.Body).2.1 = some (.lib "unexpected EOF") ∧
    (DecodeResponse samples.decodeNats "ListUsers" samples.truncated 200).logs =
      [⟨.Debug, "body of unexpected response from ListUsers: "⟩] := by
  decide

/-- C8, amended: `DecodeResponse` emits exactly one trace line, of debug level, when the status
differs from the expected one, reading `body of unexpected response from <apiName>: <raw body>`;
it also emits exactly one trace line when the status matches and the JSON decoder fails, reading
`body of unexpected response from <apiName>: <what the decoder left unread of the body>`; it
emits no trace line when it succeeds. -/
theorem DecodeResponse_logs {T : Type} [Inhabited T]
    (Decode : ReadCloser → T × Option Error × ReadCloser)
    (apiName : String) (resp : Response) (expectedStatus : Int) :
    (DecodeResponse Decode apiName resp expectedStatus).logs =
      (if resp.StatusCode = expectedStatus then
        if (Decode resp.Body).2.1 = none then []
        else [⟨.Debug, "body of unexpected response from " ++ apiName ++ ": " ++
          (Decode resp.Body).2.2.data⟩]
      else
        [⟨.Debug, "body of unexpected response from " ++ apiName ++ ": " ++ resp.Body.data⟩]) ∧
    ((DecodeResponse Decode apiName resp expectedStatus).logs.length =
      if (DecodeResponse Decode apiName resp expectedStatus).err = none then 0 else 1) := by
  by_cases h : resp.StatusCode = expectedStatus
  · cases he : (Decode resp.Body).2.1 with
    | none =>
      rw [DecodeResponse_of_decode_ok Decode apiName resp expectedStatus h he]
      simp [h]
    | some e =>
      rw [DecodeResponse_of_decode_error Decode apiName resp expectedStatus h e he]
      simp [h]
  · rw [DecodeResponse_of_mismatch Decode apiName resp expectedStatus h]
    simp [h]

end httpclient

/-! ## Theorems: the plugin -/

namespace plugin

/-- Writing index `k` and keeping `k + 1` entries appends the written entry to the first `k`. -/
theorem take_succ_set {α : Type} (l : List α) (k : Nat) (x : α) (h : k < l.length) :
    (l.set k x).take (k + 1) = l.take k ++ [x] := by
  induction l generalizing k with
  | nil => simp at h
  | cons a l ih =>
    cases k with
    | zero => simp
    | succ k =>
      simp only [List.length_cons, Nat.add_lt_add_iff_right] at h
      simp [ih k h]

/-- The indexed assignment loop, started at index `k` on a slice whose first `k` entries are
final, keeps those entries and fills the rest with the images of the resources, in order. -/
theorem foldl_set_enumFrom {α β : Type} (f : α → β) (rs : List α) (k : Nat)
    (acc : List (Option β)) (h : acc.length = k + rs.length) :
    (rs.enumFrom k).foldl (fun a iu => a.set iu.1 (some (f iu.2))) acc =
      acc.take k ++ rs.map (fun r => some (f r)) := by
  induction rs generalizing k acc with
  | nil =>
    simp at h
    simp [List.take_of_length_le (Nat.le_of_eq h)]
  | cons r rs ih =>
    simp only [List.enumFrom_cons, List.foldl_cons, List.length_cons] at h ⊢
    rw [ih (k + 1) (acc.set k (some (f r))) (by simp [h]; omega)]
    rw [take_succ_set acc k _ (by omega)]
    simp

/-- The loop of `GetUsersForGroup` computes the pointwise projection of the resources. -/
theorem projectUsers_eq_map (Resources : List scim.User) :
    projectUsers Resources =
      Resources.map (fun r => some ({ Name := r.DisplayName } : idmangv1.User)) := by
  have h := foldl_set_enumFrom (fun r : scim.User => ({ Name := r.DisplayName } : idmangv1.User))
    Resources 0 (List.replicate Resources.length none) (by simp)
  simpa [projectUsers, List.enum] using h

/-- The loop of `GetGroupsForUser` computes the pointwise projection of the resources. -/
theorem projectGroups_eq_map (Resources : List scim.Group) :
    projectGroups Resources =
      Resources.map (fun r => some ({ Name := r.DisplayName } : idmangv1.Group)) := by
  have h := foldl_set_enumFrom
    (fun r : scim.Group => ({ Name := r.DisplayName } : idmangv1.Group))
    Resources 0 (List.replicate Resources.length none) (by simp)
  simpa [projectGroups, List.enum] using h

/-- The one client call of `GetUsersForGroup`. -/
theorem GetUsersForGroup_calls {Client PageP SortP : Type}
    (ListUsers : scim.ListCall Client PageP SortP → Outcome scim.UserList)
    (p : Plugin Client) (request : idmangv1.GetUsersForGroupRequest) :
    (GetUsersForGroup ListUsers p request).calls =
      [{ client := p.scimClient, includeInactive := true,
         filter := getFilter "displayName" request.GroupId p.requestParams.GroupAttribute,
         pageParams := none, sortParams := none }] :=
  rfl

/-- The one client call of `GetGroupsForUser`. -/
theorem GetGroupsForUser_calls {Client PageP SortP : Type}
    (ListGroups : scim.ListCall Client PageP SortP → Outcome scim.GroupList)
    (p : Plugin Client) (request : idmangv1.GetGroupsForUserRequest) :
    (GetGroupsForUser ListGroups p request).calls =
      [{ client := p.scimClient, includeInactive := true,
         filter := getFilter "displayName" request.UserId p.requestParams.UserAttribute,
         pageParams := none, sortParams := none }] :=
  rfl

/-- How `GetUsersForGroup` ends, from what its one client call returned. -/
theorem GetUsersForGroup_outcome {Client PageP SortP : Type}
    (ListUsers : scim.ListCall Client PageP SortP → Outcome scim.UserList)
    (p : Plugin Client) (request : idmangv1.GetUsersForGroupRequest) :
    (GetUsersForGroup ListUsers p request).outcome =
      match ListUsers
        { client := p.scimClient, includeInactive := true,
          filter := getFilter "displayName" request.GroupId p.requestParams.GroupAttribute,
          pageParams := none, sortParams := none } with
      | .panicked => .panicked
      | .returned _ (some err) => .returned none (some (errs.Wrap ErrGetUsersForGroup err))
      | .returned none none => .panicked
      | .returned (some users) none =>
        .returned (some { Users := projectUsers users.Resources }) none :=
  rfl

/-- How `GetGroupsForUser` ends, from what its one client call returned. -/
theorem GetGroupsForUser_outcome {Client PageP SortP : Type}
    (ListGroups : scim.ListCall Client PageP SortP → Outcome scim.GroupList)
    (p : Plugin Client) (request : idmangv1.GetGroupsForUserRequest) :
    (GetGroupsForUser ListGroups p request).outcome =
      match ListGroups
        { client := p.scimClient, includeInactive := true,
          filter := getFilter "displayName" request.UserId p.requestParams.UserAttribute,
          pageParams := none, sortParams := none } with
      | .panicked => .panicked
      | .returned _ (some err) => .returned none (some (errs.Wrap ErrGetGroupsForUser err))
      | .returned none none => .panicked
      | .returned (some groups) none =>
        .returned (some { Groups := projectGroups groups.Resources }) none :=
  rfl

/-- C1: `getFilter d v o` is the filter with attribute `o` when `o` is set (the empty string
included) and `d` when `o` is unset, with value `v` unchanged and with the equality operator;
it is a total function. -/
theorem getFilter_spec (d v : String) (o : Option String) :
    getFilter d v o =
      { Attribute := o.getD d, Operator := scim.FilterOperatorEqual, Value := v } ∧
    (∀ a : String, (getFilter d v (some a)).Attribute = a) ∧
    (getFilter d v (some "")).Attribute = "" ∧
    (getFilter d v none).Attribute = d ∧
    (getFilter d v o).Value = v ∧
    (getFilter d v o).Operator = scim.FilterOperatorEqual := by
  cases o <;> simp [getFilter]

/-- C6: when the list call of `GetUsersForGroup` returns a list response and no error, the
operation returns no error and a `Users` sequence with one entry per resource, in the same order,
the entry at index `i` being a user whose `Name` is the `DisplayName` of resource `i`; an empty
`Resources` gives a successful empty result. `GetGroupsForUser` does the same for `Groups`. -/
theorem GetUsersForGroup_projects {Client PageP SortP : Type}
    (ListUsers : scim.ListCall Client PageP SortP → Outcome scim.UserList)
    (ListGroups : scim.ListCall Client PageP SortP → Outcome scim.GroupList)
    (p : Plugin Client) (ureq : idmangv1.GetUsersForGroupRequest)
    (greq : idmangv1.GetGroupsForUserRequest) (users : scim.UserList) (groups : scim.GroupList) :
    ((∀ c ∈ (GetUsersForGroup ListUsers p ureq).calls,
        ListUsers c = .returned (some users) none) →
      ∃ resp, (GetUsersForGroup ListUsers p ureq).outcome = .returned (some resp) none ∧
        resp.Users = users.Resources.map (fun r => some { Name := r.DisplayName }) ∧
        resp.Users.length = users.Resources.length ∧
        (∀ (i : Nat) (hi : i < users.Resources.length),
          resp.Users[i]? = some (some { Name := users.Resources[i].DisplayName })) ∧
        (users.Resources = [] → resp.Users = [])) ∧
    ((∀ c ∈ (GetGroupsForUser ListGroups p greq).calls,
        ListGroups c = .returned (some groups) none) →
      ∃ resp, (GetGroupsForUser ListGroups p greq).outcome = .returned (some resp) none ∧
        resp.Groups = groups.Resources.map (fun r => some { Name := r.DisplayName }) ∧
        resp.Groups.length = groups.Resources.length ∧
        (∀ (i : Nat) (hi : i < groups.Resources.length),
          resp.Groups[i]? = some (some { Name := groups.Resources[i].DisplayName })) ∧
        (groups.Resources = [] → resp.Groups = [])) := by
  constructor
  · intro h
    have hc := h _ (by rw [GetUsersForGroup_calls]; exact List.mem_singleton.mpr rfl)
    refine ⟨{ Users := projectUsers users.Resources }, ?_, ?_, ?_, ?_, ?_⟩
    · rw [GetUsersForGroup_outcome, hc]
    · exact projectUsers_eq_map _
    · simp [projectUsers_eq_map]
    · intro i hi
      simp [projectUsers_eq_map, hi]
    · intro hnil
      simp [projectUsers_eq_map, hnil]
  · intro h
    have hc := h _ (by rw [GetGroupsForUser_calls]; exact List.mem_singleton.mpr rfl)
    refine ⟨{ Groups := projectGroups groups.Resources }, ?_, ?_, ?_, ?_, ?_⟩
    · rw [GetGroupsForUser_outcome, hc]
    · exact projectGroups_eq_map _
    · simp [projectGroups_eq_map]
    · intro i hi
      simp [projectGroups_eq_map, hi]
    · intro hnil
      simp [projectGroups_eq_map, hnil]

/-- Witness for C6: the mock backend answers with the one user `None` and the one group
`KeyAdmin`. -/
theorem GetUsersForGroup_projects_witness :
    (∃ resp, (GetUsersForGroup samples.listUsers samples.configured
        { GroupId := "anygroupid" }).outcome = .returned (some resp) none ∧
      resp.Users = [some { Name := "None" }]) ∧
    (∃ resp, (GetGroupsForUser samples.listGroups samples.configured
        { UserId := "u1" }).outcome = .returned (some resp) none ∧
      resp.Groups = [some { Name := "KeyAdmin" }]) :=
  have h := GetUsersForGroup_projects samples.listUsers samples.listGroups samples.configured
    { GroupId := "anygroupid" } { UserId := "u1" }
    { Resources := [{ DisplayName := "None" }] } { Resources := [{ DisplayName := "KeyAdmin" }] }
  ⟨(h.1 (by
      intro c hc
      rw [GetUsersForGroup_calls, List.mem_singleton] at hc
      subst hc
      decide)).imp fun _ hr => ⟨hr.1, hr.2.1⟩,
   (h.2 (by
      intro c hc
      rw [GetGroupsForUser_calls, List.mem_singleton] at hc
      subst hc
      decide)).imp fun _ hr => ⟨hr.1, hr.2.1⟩⟩

/-- C7: when the list call of `GetUsersForGroup` returns an error `e`, the operation returns a
nil response and an error whose cause chain contains `ErrGetUsersForGroup`, `e`, and every error
in the cause chain of `e`; likewise `GetGroupsForUser` with `ErrGetGroupsForUser`. Neither
operation ever returns a response together with an error. -/
theorem query_wraps_list_error {Client PageP SortP : Type}
    (ListUsers : scim.ListCall Client PageP SortP → Outcome scim.UserList)
    (ListGroups : scim.ListCall Client PageP SortP → Outcome scim.GroupList)
    (p : Plugin Client) (ureq : idmangv1.GetUsersForGroupRequest)
    (greq : idmangv1.GetGroupsForUserRequest) (e : Error)
    (ur : Option scim.UserList) (gr : Option scim.GroupList) :
    ((∀ c ∈ (GetUsersForGroup ListUsers p ureq).calls, ListUsers c = .returned ur (some e)) →
      ∃ err, (GetUsersForGroup ListUsers p ureq).outcome = .returned none (some err) ∧
        errors.Is err ErrGetUsersForGroup = true ∧
        errors.Is err e = true ∧
        ∀ t, errors.Is e t = true → errors.Is err t = true) ∧
    ((∀ c ∈ (GetGroupsForUser ListGroups p greq).calls, ListGroups c = .returned gr (some e)) →
      ∃ err, (GetGroupsForUser ListGroups p greq).outcome = .returned none (some err) ∧
        errors.Is err ErrGetGroupsForUser = true ∧
        errors.Is err e = true ∧
        ∀ t, errors.Is e t = true → errors.Is err t = true) ∧
    (∀ resp err, (GetUsersForGroup ListUsers p ureq).outcome ≠ .returned (some resp) (some err)) ∧
    (∀ resp err,
      (GetGroupsForUser ListGroups p greq).outcome ≠ .returned (some resp) (some err)) := by
  refine ⟨?_, ?_, ?_, ?_⟩
  · intro h
    have hc := h _ (by rw [GetUsersForGroup_calls]; exact List.mem_singleton.mpr rfl)
    refine ⟨errs.Wrap ErrGetUsersForGroup e, ?_, ?_, ?_, ?_⟩
    · rw [GetUsersForGroup_outcome, hc]
      cases ur <;> rfl
    · simp [errs.Wrap, errors.Is_wrap, errors.Is_self]
    · simp [errs.Wrap, errors.Is_wrap, errors.Is_self]
    · intro t ht
      simp [errs.Wrap, errors.Is_wrap, ht]
  · intro h
    have hc := h _ (by rw [GetGroupsForUser_calls]; exact List.mem_singleton.mpr rfl)
    refine ⟨errs.Wrap ErrGetGroupsForUser e, ?_, ?_, ?_, ?_⟩
    · rw [GetGroupsForUser_outcome, hc]
      cases gr <;> rfl
    · simp [errs.Wrap, errors.Is_wrap, errors.Is_self]
    · simp [errs.Wrap, errors.Is_wrap, errors.Is_self]
    · intro t ht
      simp [errs.Wrap, errors.Is_wrap, ht]
  · intro resp err
    rw [GetUsersForGroup_outcome]
    split <;> simp
  · intro resp err
    rw [GetGroupsForUser_outcome]
    split <;> simp

/-- Witness for C7: a client that points at an unusable host. -/
theorem query_wraps_list_error_witness :
    (∃ err, (GetUsersForGroup samples.listUsers samples.badServer
        { GroupId := "" }).outcome = .returned none (some err) ∧
      errors.Is err ErrGetUsersForGroup = true ∧
      errors.Is err (.New "clients/scim.ErrListUsers" "failed to list users") = true) ∧
    (∃ err, (GetGroupsForUser samples.listGroups samples.badServer
        { UserId := "u1" }).outcome = .returned none (some err) ∧
      errors.Is err ErrGetGroupsForUser = true ∧
      errors.Is err samples.listFailure = true) :=
  have h := query_wraps_list_error samples.listUsers samples.listGroups samples.badServer
    { GroupId := "" } { UserId := "u1" } samples.listFailure none none
  ⟨(h.1 (by
      intro c hc
      rw [GetUsersForGroup_calls, List.mem_singleton] at hc
      subst hc
      decide)).imp fun _ hr => ⟨hr.1, hr.2.1, hr.2.2.2 _ (by decide)⟩,
   (h.2.1 (by
      intro c hc
      rw [GetGroupsForUser_calls, List.mem_singleton] at hc
      subst hc
      decide)).imp fun _ hr => ⟨hr.1, hr.2.1, hr.2.2.1⟩⟩

/-- C9: in every plugin state, with stored client `c` and overrides `g` and `u`, and for every
request, `GetUsersForGroup` makes exactly one `ListUsers` call, with `includeInactive = true`,
no pagination parameters, no sort parameters and the filter
`getFilter "displayName" request.GroupId g`, and what it does is the same for every `u`;
`GetGroupsForUser` makes exactly one `ListGroups` call with the same fixed arguments and the
filter `getFilter "displayName" request.UserId u`, the same for every `g`. With the relevant
override unset the filter attribute is `displayName`. The recorded call is the call whose
answer decides the operation: the operation is the same for any two clients that answer the
recorded call alike, it panics exactly if that answer is a panic or a nil pair, it returns an
error and no response if that answer carries an error, and it returns the projected resources
of that answer otherwise. -/
theorem query_makes_one_call {Client PageP SortP : Type}
    (ListUsers : scim.ListCall Client PageP SortP → Outcome scim.UserList)
    (ListGroups : scim.ListCall Client PageP SortP → Outcome scim.GroupList)
    (c : Option Client) (g u : Option String) (ureq : idmangv1.GetUsersForGroupRequest)
    (greq : idmangv1.GetGroupsForUserRequest) :
    (GetUsersForGroup ListUsers { scimClient := c, requestParams := ⟨g, u⟩ } ureq).calls =
      [{ client := c, includeInactive := true,
         filter := getFilter "displayName" ureq.GroupId g,
         pageParams := none, sortParams := none }] ∧
    (∀ u2 : Option String,
      GetUsersForGroup ListUsers { scimClient := c, requestParams := ⟨g, u2⟩ } ureq =
        GetUsersForGroup ListUsers { scimClient := c, requestParams := ⟨g, u⟩ } ureq) ∧
    (GetGroupsForUser ListGroups { scimClient := c, requestParams := ⟨g, u⟩ } greq).calls =
      [{ client := c, includeInactive := true,
         filter := getFilter "displayName" greq.UserId u,
         pageParams := none, sortParams := none }] ∧
    (∀ g2 : Option String,
      GetGroupsForUser ListGroups { scimClient := c, requestParams := ⟨g2, u⟩ } greq =
        GetGroupsForUser ListGroups { scimClient := c, requestParams := ⟨g, u⟩ } greq) ∧
    ((GetUsersForGroup ListUsers { scimClient := c, requestParams := ⟨none, u⟩ } ureq).calls.map
      (fun call => call.filter.Attribute) = ["displayName"]) ∧
    ((GetGroupsForUser ListGroups { scimClient := c, requestParams := ⟨g, none⟩ } greq).calls.map
      (fun call => call.filter.Attribute) = ["displayName"]) ∧
    (∀ ListUsers2 : scim.ListCall Client PageP SortP → Outcome scim.UserList,
      ListUsers2
          { client := c, includeInactive := true,
            filter := getFilter "displayName" ureq.GroupId g,
            pageParams := none, sortParams := none } =
        ListUsers
          { client := c, includeInactive := true,
            filter := getFilter "displayName" ureq.GroupId g,
            pageParams := none, sortParams := none } →
      GetUsersForGroup ListUsers2 { scimClient := c, requestParams := ⟨g, u⟩ } ureq =
        GetUsersForGroup ListUsers { scimClient := c, requestParams := ⟨g, u⟩ } ureq) ∧
    (∀ ListGroups2 : scim.ListCall Client PageP SortP → Outcome scim.GroupList,
      ListGroups2
          { client := c, includeInactive := true,
            filter := getFilter "displayName" greq.UserId u,
            pageParams := none, sortParams := none } =
        ListGroups
          { client := c, includeInactive := true,
            filter := getFilter "displayName" greq.UserId u,
            pageParams := none, sortParams := none } →
      GetGroupsForUser ListGroups2 { scimClient := c, requestParams := ⟨g, u⟩ } greq =
        GetGroupsForUser ListGroups { scimClient := c, requestParams := ⟨g, u⟩ } greq) ∧
    (∀ call ∈ (GetUsersForGroup ListUsers { scimClient := c, requestParams := ⟨g, u⟩ } ureq).calls,
      ((GetUsersForGroup ListUsers { scimClient := c, requestParams := ⟨g, u⟩ } ureq).outcome =
          .panicked ↔
        (ListUsers call = .panicked ∨ ListUsers call = .returned none none)) ∧
      (∀ r e, ListUsers call = .returned r (some e) →
        ∃ err, (GetUsersForGroup ListUsers { scimClient := c, requestParams := ⟨g, u⟩ }
          ureq).outcome = .returned none (some err)) ∧
      (∀ users, ListUsers call = .returned (some users) none →
        (GetUsersForGroup ListUsers { scimClient := c, requestParams := ⟨g, u⟩ } ureq).outcome =
          .returned (some { Users := projectUsers users.Resources }) none)) ∧
    (∀ call ∈ (GetGroupsForUser ListGroups { scimClient := c, requestParams := ⟨g, u⟩ }
        greq).calls,
      ((GetGroupsForUser ListGroups { scimClient := c, requestParams := ⟨g, u⟩ } greq).outcome =
          .panicked ↔
        (ListGroups call = .panicked ∨ ListGroups call = .returned none none)) ∧
      (∀ r e, ListGroups call = .returned r (some e) →
        ∃ err, (GetGroupsForUser ListGroups { scimClient := c, requestParams := ⟨g, u⟩ }
          greq).outcome = .returned none (some err)) ∧
      (∀ groups, ListGroups call = .returned (some groups) none →
        (GetGroupsForUser ListGroups { scimClient := c, requestParams := ⟨g, u⟩ } greq).outcome =
          .returned (some { Groups := projectGroups groups.Resources }) none)) := by
  refine ⟨rfl, fun _ => rfl, rfl, fun _ => rfl, rfl, rfl, ?_, ?_, ?_, ?_⟩
  · intro ListUsers2 h
    simp only [GetUsersForGroup, ClientProgram.run]
    rw [show defaultGroupsFilterAttribute = "displayName" from rfl, h]
  · intro ListGroups2 h
    simp only [GetGroupsForUser, ClientProgram.run]
    rw [show defaultUsersFilterAttribute = "displayName" from rfl, h]
  · intro call hcall
    simp only [GetUsersForGroup, ClientProgram.run, List.mem_singleton] at hcall ⊢
    subst hcall
    refine ⟨?_, ?_, ?_⟩
    · split <;> simp_all
    · intro r e h
      rw [h]
      cases r <;> exact ⟨_, rfl⟩
    · intro users h
      rw [h]
  · intro call hcall
    simp only [GetGroupsForUser, ClientProgram.run, List.mem_singleton] at hcall ⊢
    subst hcall
    refine ⟨?_, ?_, ?_⟩
    · split <;> simp_all
    · intro r e h
      rw [h]
      cases r <;> exact ⟨_, rfl⟩
    · intro groups h
      rw [h]

/-- No path through `Configure` writes the stored attribute overrides. -/
theorem Configure_requestParams {Client : Type}
    (Unmarshal : String → Config × Option Error)
    (NewClient : scim.APIParams → Option Client × Option Error)
    (p : Plugin Client) (req : configv1.ConfigureRequest) :
    (Configure Unmarshal NewClient p req).plugin.requestParams = p.requestParams := by
  simp only [Configure]
  split
  · rfl
  · split <;> rfl

/-- C10: when the YAML reader or the client constructor reports an error, `Configure` returns a
nil response and a non-nil error and leaves the plugin (stored client and stored overrides) as it
was; whenever `Configure` returns an error the plugin is unchanged; the stored client differs
after the call only if `Configure` returned a response and a nil error. -/
theorem Configure_atomic {Client : Type}
    (Unmarshal : String → Config × Option Error)
    (NewClient : scim.APIParams → Option Client × Option Error)
    (p : Plugin Client) (req : configv1.ConfigureRequest) :
    (((Unmarshal req.YamlConfiguration).2 ≠ none ∨
        (NewClient (Unmarshal req.YamlConfiguration).1.ConnectCfg).2 ≠ none) →
      (Configure Unmarshal NewClient p req).resp = none ∧
      (Configure Unmarshal NewClient p req).err ≠ none ∧
      (Configure Unmarshal NewClient p req).plugin = p) ∧
    ((Configure Unmarshal NewClient p req).err ≠ none →
      (Configure Unmarshal NewClient p req).resp = none ∧
      (Configure Unmarshal NewClient p req).plugin = p) ∧
    ((Configure Unmarshal NewClient p req).plugin.scimClient ≠ p.scimClient →
      (Configure Unmarshal NewClient p req).resp = some {} ∧
      (Configure Unmarshal NewClient p req).err = none) := by
  rcases hu : Unmarshal req.YamlConfiguration with ⟨cfg, uerr⟩
  cases uerr with
  | some e => simp [Configure, hu]
  | none =>
    rcases hn : NewClient cfg.ConnectCfg with ⟨client, nerr⟩
    cases nerr with
    | some e => simp [Configure, hu, hn]
    | none => simp [Configure, hu, hn]

/-- Witness for C10: a YAML text the reader rejects, given to a configured plugin. -/
theorem Configure_atomic_witness :
    (samples.unmarshal "connectcfg: [").2 ≠ none ∧
    (Configure samples.unmarshal samples.newClient samples.configured
      { YamlConfiguration := "connectcfg: [" }).resp = none ∧
    (Configure samples.unmarshal samples.newClient samples.configured
      { YamlConfiguration := "connectcfg: [" }).err ≠ none ∧
    (Configure samples.unmarshal samples.newClient samples.configured
      { YamlConfiguration := "connectcfg: [" }).plugin = samples.configured :=
  have hu : (samples.unmarshal "connectcfg: [").2 ≠ none := by decide
  ⟨hu, (Configure_atomic samples.unmarshal samples.newClient samples.configured
    { YamlConfiguration := "connectcfg: [" }).1 (Or.inl hu)⟩

/-- C2, evaluated on the code: `Configure` succeeds on a configuration whose `requestparams` set
the group attribute to `Non-existent`, and the following `GetUsersForGroup` call still filters on
`displayName`, so the backend matches the user `None`; the stored overrides are the ones of
`NewPlugin`. -/
theorem Configure_drops_requestParams :
    (samples.unmarshal samples.yaml).1.RequestParams.GroupAttribute = some "Non-existent" ∧
    (Configure samples.unmarshal samples.newClient NewPlugin
      { YamlConfiguration := samples.yaml }).err = none ∧
    (Configure samples.unmarshal samples.newClient NewPlugin
      { YamlConfiguration := samples.yaml }).plugin.requestParams =
        { GroupAttribute := none, UserAttribute := none } ∧
    (GetUsersForGroup samples.listUsers
      (Configure samples.unmarshal samples.newClient NewPlugin
        { YamlConfiguration := samples.yaml }).plugin { GroupId := "None" }).calls.map
      (fun call => call.filter) =
        [{ Attribute := "displayName", Operator := "eq", Value := "None" }] ∧
    (GetUsersForGroup samples.listUsers
      (Configure samples.unmarshal samples.newClient NewPlugin
        { YamlConfiguration := samples.yaml }).plugin { GroupId := "None" }).outcome =
      .returned (some { Users := [some { Name := "None" }] }) none := by
  decide

end plugin

end IdentityManagement
